import Mathlib

/-!
Verification of the bounce-ingestion subsystem (cmd/bounce.go) of listmonk:
the webhook dispatcher, the native-path validator and normalization, the
per-record recording loop, the deletion-mode resolution and the list
endpoint's sort-parameter sanitization, embedded shallowly in Lean.
-/

/-- Error classes surfaced by the handlers, distinguished by the i18n message
key passed to echo.NewHTTPError in the source. All are HTTP 400 client
errors; `unknownService` corresponds to the key bounces.unknownService, the
others to globals.messages keys. -/
inductive ApiError where
  | invalidData
  | invalidEmail
  | invalidUUID
  | invalidID
  | unknownService
deriving DecidableEq

/-- Model of Go time.Time keeping the data the source inspects: the year
(time.Time.Year) plus an opaque remainder of the instant. -/
structure GoTime where
  year : Int
  frac : Nat
deriving DecidableEq

/-- Zero value of Go time.Time: January 1 of year 1 (UTC), so Year() is 1. -/
def goTimeZero : GoTime := { year := 1, frac := 0 }

/-- Model of models.Bounce: the Normalized Bounce Record. Meta (a
json.RawMessage byte slice in Go) is kept as a raw string, so the source's
len(b.Meta) == 0 test is meta.length = 0. -/
structure Bounce where
  id : Int
  type : String
  source : String
  meta : String
  createdAt : GoTime
  subscriberUUID : String
  email : String
  campaignID : Int
deriving DecidableEq

/-- Embedding of validateBounceFields (cmd/bounce.go lines 237-251),
parametric in the two syntactic predicates it calls (subimporter.IsEmail and
reUUID.MatchString, which live outside cmd/bounce.go): fail invalidData when
both email and subscriberUUID are empty; then fail invalidEmail when email is
non-empty and not an email; then fail invalidUUID when subscriberUUID is
non-empty and does not match; else succeed. -/
def validateBounceFields (isEmail uuidMatch : String → Bool) (b : Bounce) :
    Except ApiError Unit :=
  if b.email = "" ∧ b.subscriberUUID = "" then Except.error ApiError.invalidData
  else if b.email ≠ "" ∧ isEmail b.email = false then Except.error ApiError.invalidEmail
  else if b.subscriberUUID ≠ "" ∧ uuidMatch b.subscriberUUID = false then
    Except.error ApiError.invalidUUID
  else Except.ok ()

/-- Separator split over a character list (the computable core behind the
string splitting the adapter models below use). -/
def splitOnChar (sep : Char) : List Char → List (List Char)
  | [] => [[]]
  | c :: rest =>
    if c = sep then [] :: splitOnChar sep rest
    else
      match splitOnChar sep rest with
      | [] => [[c]]
      | g :: gs => (c :: g) :: gs

/-- Modelled from the spec: subimporter.IsEmail (not under src/) checks that a
string is a syntactically valid email address; modelled as exactly one
at-sign separating a non-empty local part from a non-empty domain. -/
def isEmailModel (s : String) : Bool :=
  match splitOnChar '@' s.toList with
  | [l, d] => !l.isEmpty && !d.isEmpty
  | _ => false

/-- Hex-digit test used by the UUID pattern model (lowercase hex, as in the
canonical textual pattern). -/
def isLowerHexDigit (c : Char) : Bool :=
  c.isDigit || ('a' ≤ c && c ≤ 'f')

/-- Group test for the UUID pattern model: exactly n lowercase hex digits. -/
def uuidGroup (g : List Char) (n : Nat) : Bool :=
  g.length == n && g.all isLowerHexDigit

/-- Modelled from the spec: the reUUID regular expression (not under src/)
matching the canonical UUID textual pattern, five hyphen-separated groups of
8, 4, 4, 4 and 12 lowercase hex digits. -/
def reUUIDMatch (s : String) : Bool :=
  match splitOnChar '-' s.toList with
  | [a, b, c, d, e] =>
    uuidGroup a 8 && uuidGroup b 4 && uuidGroup c 4 && uuidGroup d 4 && uuidGroup e 12
  | _ => false

/-- Model of Go strings.ToLower restricted to ASCII: each character is
lowercased independently (Char.toLower maps A-Z to a-z and keeps the
rest). -/
def goToLower (s : String) : String :=
  String.mk (s.toList.map Char.toLower)

/-- Native-path normalization applied after validation (cmd/bounce.go lines
171-179): lowercase the email; default an empty meta to the empty JSON
object; default a year-zero createdAt to the current time. -/
def nativeNormalize (now : GoTime) (b : Bounce) : Bounce :=
  let b1 := { b with email := goToLower b.email }
  let b2 := if b1.meta.length = 0 then { b1 with meta := "\x7b\x7d" } else b1
  if b2.createdAt.year = 0 then { b2 with createdAt := now } else b2

/-- SES adapter capability as the dispatcher sees it (app.bounce.SES):
the subscription-confirmation handshake and the single-bounce notification
parse, each fallible. -/
structure SESAdapter where
  processSubscription : String → Except Unit Unit
  processBounce : String → Except Unit Bounce

/-- Sendgrid adapter capability as the dispatcher sees it
(app.bounce.Sendgrid.ProcessBounce): signature, timestamp and raw body in,
a batch of bounces out, fallible. -/
structure SendgridAdapter where
  processBounce : String → String → String → Except Unit (List Bounce)

/-- Modelled from the spec: the Sendgrid adapter internals (internal/bounce
package, not under src/). It verifies the signature over the timestamp plus
the exact raw body bytes with the pre-shared key before trusting the payload
(verification abstracted as the predicate verify), and on success parses the
payload's bounce events into records preserving payload order (abstracted as
parseEvents). -/
def sendgridProcessModel (verify : String → String → String → Bool)
    (parseEvents : String → Except Unit (List Bounce))
    (sig ts body : String) : Except Unit (List Bounce) :=
  if verify sig ts body then parseEvents body else Except.error ()

/-- Feature flags gating the non-native providers
(app.constants.BounceSESEnabled, app.constants.BounceSendgridEnabled). -/
structure AppConfig where
  bounceSESEnabled : Bool
  bounceSendgridEnabled : Bool
deriving DecidableEq

/-- Dependencies of handleBounceWebhook drawn from the App value: the feature
flags, the two provider adapters, the native-path JSON parse
(json.Unmarshal into models.Bounce), the validator's syntactic predicates
and the current time. -/
structure Env where
  cfg : AppConfig
  ses : SESAdapter
  sg : SendgridAdapter
  parseBounce : String → Except Unit Bounce
  isEmail : String → Bool
  uuidMatch : String → Bool
  now : GoTime

/-- Inbound webhook request: the service route parameter, the
X-Amz-Sns-Message-Type header, the two Twilio signature headers and the raw
body read once by the handler. -/
structure WebhookRequest where
  service : String
  snsMessageType : String
  sgSignature : String
  sgTimestamp : String
  rawBody : String

/-- Embedding of the provider-dispatch switch of handleBounceWebhook
(cmd/bounce.go lines 159-225), producing the bounce list handed to the
recording loop, or the error returned. Cases in source order: empty service
is the native path (parse, validate, normalize, one record); ses with its
flag on branches on the SNS message type; sendgrid with its flag on
delegates to the batch adapter; anything else is the unknown-service
error. -/
def bounceDispatch (e : Env) (req : WebhookRequest) : Except ApiError (List Bounce) :=
  if req.service = "" then
    match e.parseBounce req.rawBody with
    | Except.error _ => Except.error ApiError.invalidData
    | Except.ok b =>
      match validateBounceFields e.isEmail e.uuidMatch b with
      | Except.error err => Except.error err
      | Except.ok _ => Except.ok [nativeNormalize e.now b]
  else if req.service = "ses" ∧ e.cfg.bounceSESEnabled = true then
    if req.snsMessageType = "SubscriptionConfirmation" ∨
        req.snsMessageType = "UnsubscribeConfirmation" then
      match e.ses.processSubscription req.rawBody with
      | Except.error _ => Except.error ApiError.invalidData
      | Except.ok _ => Except.ok []
    else if req.snsMessageType = "Notification" then
      match e.ses.processBounce req.rawBody with
      | Except.error _ => Except.error ApiError.invalidData
      | Except.ok b => Except.ok [b]
    else Except.error ApiError.invalidData
  else if req.service = "sendgrid" ∧ e.cfg.bounceSendgridEnabled = true then
    match e.sg.processBounce req.sgSignature req.sgTimestamp req.rawBody with
    | Except.error _ => Except.error ApiError.invalidData
    | Except.ok bs => Except.ok bs
  else Except.error ApiError.unknownService

/-- Embedding of the recording loop of handleBounceWebhook (cmd/bounce.go
lines 228-232): app.bounce.Record is applied to each bounce in list order;
the returned error is only logged (dropped here together with the log), so
the loop continues and the recorder state threads through every record. -/
def recordLoop {σ : Type} (rec : σ → Bounce → σ × Bool) : σ → List Bounce → σ
  | s, [] => s
  | s, b :: bs => recordLoop rec (rec s b).1 bs

/-- Embedding of handleBounceWebhook (cmd/bounce.go lines 144-235): dispatch,
then on success run the recording loop over the bounce list and answer
HTTP 200 with body true whatever the per-record outcomes were; on a dispatch
error return it with the recorder state untouched. -/
def handleBounceWebhook {σ : Type} (e : Env) (rec : σ → Bounce → σ × Bool)
    (s : σ) (req : WebhookRequest) : σ × Except ApiError Bool :=
  match bounceDispatch e req with
  | Except.error err => (s, Except.error err)
  | Except.ok bs => (recordLoop rec s bs, Except.ok true)

/-- Recorder instance that records the trace of Record calls: the state is
the list of bounces handed to the recorder so far, and f fixes which calls
report failure. -/
def tracingRecorder (f : Bounce → Bool) : List Bounce → Bounce → List Bounce × Bool :=
  fun s b => (s ++ [b], f b)

/-- Go strconv.ParseInt base-10 bitSize-64 digit accumulator: value of a
non-empty all-digit run, none otherwise. -/
def digitsNatAux : List Char → Nat → Option Nat
  | [], acc => some acc
  | c :: cs, acc =>
    if c.isDigit then digitsNatAux cs (10 * acc + (c.toNat - 48)) else none

/-- Largest int64 value, the positive clamp of strconv.ParseInt. -/
def int64Max : Int := 9223372036854775807

/-- Smallest int64 value, the negative clamp of strconv.ParseInt. -/
def int64Min : Int := -9223372036854775808

/-- Model of Go strconv.ParseInt(s, 10, 64) as (value, ok): optional single
sign then at least one digit; a syntax error yields (0, false); a value out
of int64 range yields the clamped bound with false; otherwise the value with
true. The handlers ignore the ok flag where the source ignores err. -/
def goParseInt64 (s : String) : Int × Bool :=
  match s.toList with
  | [] => (0, false)
  | c :: rest =>
    let ds := if c = '-' ∨ c = '+' then rest else c :: rest
    match digitsNatAux ds 0 with
    | none => (0, false)
    | some n =>
      if ds = [] then (0, false)
      else
        let v : Int := if c = '-' then -(n : Int) else (n : Int)
        if int64Max < v then (int64Max, false)
        else if v < int64Min then (int64Min, false)
        else (v, true)

/-- Modelled from the spec: parseStringIDs (cmd utilities, not under src/)
parses each repeated id query parameter with strconv.ParseInt and fails when
any of them is unparseable or non-positive, otherwise returns the parsed ids
in order. -/
def parseStringIDs : List String → Except Unit (List Int)
  | [] => Except.ok []
  | s :: rest =>
    if (goParseInt64 s).2 = false then Except.error ()
    else if (goParseInt64 s).1 < 1 then Except.error ()
    else
      match parseStringIDs rest with
      | Except.error e => Except.error e
      | Except.ok vs => Except.ok ((goParseInt64 s).1 :: vs)

/-- Embedding of handleDeleteBounces (cmd/bounce.go lines 103-141) up to the
id-set resolution: a success carries the id array handed to the
DeleteBounces statement. A non-empty path id is parsed with the error
ignored and rejected as invalidID when below 1; otherwise, when the all flag
is not set, the repeated id query parameters are parsed, rejecting a parse
failure or an empty set as invalidID; otherwise the empty array proceeds
(the all-flag mode). -/
def handleDeleteBounces (pID : String) (allFlag : Bool) (qids : List String) :
    Except ApiError (List Int) :=
  if pID ≠ "" then
    if (goParseInt64 pID).1 < 1 then Except.error ApiError.invalidID
    else Except.ok [(goParseInt64 pID).1]
  else if allFlag = false then
    match parseStringIDs qids with
    | Except.error _ => Except.error ApiError.invalidID
    | Except.ok ids =>
      if ids.length = 0 then Except.error ApiError.invalidID else Except.ok ids
  else Except.ok []

/-- Modelled from the spec: strSliceContains (cmd utilities, not under src/),
the membership test backing the sort-field allow-list. -/
def strSliceContains (str : String) (sl : List String) : Bool :=
  sl.contains str

/-- Modelled from the spec: bounceQuerySortFields (defined outside src/), the
fixed allow-list of sortable fields of the bounce query; it contains the
default field created_at. -/
def bounceQuerySortFields : List String :=
  ["email", "campaign_name", "source", "created_at"]

/-- Sort direction constant asc (defined outside src/, value fixed by the
spec's order parameter grammar). -/
def sortAsc : String := "asc"

/-- Sort direction constant desc (defined outside src/, value fixed by the
spec's order parameter grammar). -/
def sortDesc : String := "desc"

/-- Embedding of the sort-parameter sanitization of handleGetBounces
(cmd/bounce.go lines 46-52), producing the orderBy and order identifiers
interpolated into the bounce query by fmt.Sprintf: an orderBy outside the
allow-list becomes created_at, an order that is neither asc nor desc becomes
desc. -/
def handleGetBouncesSort (orderBy order : String) : String × String :=
  let ob := if strSliceContains orderBy bounceQuerySortFields = false
    then "created_at" else orderBy
  let o := if order ≠ sortAsc ∧ order ≠ sortDesc then sortDesc else order
  (ob, o)

/-- Record with both identifying fields non-empty and individually valid,
used to probe the validator's acceptance condition. -/
def bBothFields : Bounce :=
  { id := 0, type := "hard", source := "api", meta := "\x7b\x7d"
    createdAt := { year := 2026, frac := 0 }
    subscriberUUID := "12345678-1234-1234-1234-123456789abc"
    email := "user@example.com", campaignID := 1 }

/-- Record identified by email only. -/
def bEmailOnly : Bounce :=
  { id := 0, type := "hard", source := "api", meta := "x"
    createdAt := { year := 2025, frac := 0 }
    subscriberUUID := "", email := "user@example.com", campaignID := 2 }

/-- Record with both identifying fields empty. -/
def bBothEmpty : Bounce :=
  { id := 0, type := "", source := "", meta := ""
    createdAt := { year := 2025, frac := 0 }
    subscriberUUID := "", email := "", campaignID := 0 }

/-- Already-normalized native record used by the recording-loop witnesses. -/
def bNative : Bounce :=
  { id := 0, type := "hard", source := "api", meta := "x"
    createdAt := { year := 2025, frac := 3 }
    subscriberUUID := "", email := "user@example.com", campaignID := 2 }

/-- Mixed-case native record with empty meta and an explicit year-zero
timestamp, exercising every normalization step. -/
def bMixed : Bounce :=
  { id := 3, type := "t", source := "s", meta := ""
    createdAt := { year := 0, frac := 0 }
    subscriberUUID := "", email := "MiXeD@Example.COM", campaignID := 9 }

/-- Native record parsed from a payload carrying no created_at field: the
Go zero time.Time, whose year is 1. -/
def bNoTimestamp : Bounce :=
  { id := 0, type := "hard", source := "api", meta := ""
    createdAt := goTimeZero
    subscriberUUID := "", email := "User@Example.com", campaignID := 0 }

/-- Bounce produced by the SES notification adapter in the witnesses. -/
def bSes : Bounce :=
  { id := 0, type := "hard", source := "ses", meta := "\x7b\x7d"
    createdAt := { year := 2026, frac := 1 }
    subscriberUUID := "", email := "bounced@example.com", campaignID := 0 }

/-- First of the three Sendgrid batch bounces of the witnesses. -/
def bSgOne : Bounce :=
  { id := 0, type := "hard", source := "sendgrid", meta := "\x7b\x7d"
    createdAt := { year := 2026, frac := 1 }
    subscriberUUID := "", email := "one@example.com", campaignID := 0 }

/-- Second of the three Sendgrid batch bounces of the witnesses. -/
def bSgTwo : Bounce :=
  { id := 0, type := "soft", source := "sendgrid", meta := "\x7b\x7d"
    createdAt := { year := 2026, frac := 2 }
    subscriberUUID := "", email := "two@example.com", campaignID := 0 }

/-- Third of the three Sendgrid batch bounces of the witnesses. -/
def bSgThree : Bounce :=
  { id := 0, type := "complaint", source := "sendgrid", meta := "\x7b\x7d"
    createdAt := { year := 2026, frac := 3 }
    subscriberUUID := "", email := "three@example.com", campaignID := 0 }

/-- Signature check of the witness environments: accepts exactly the
signature goodsig. -/
def sgVerifyTest : String → String → String → Bool :=
  fun sig _ _ => sig == "goodsig"

/-- Payload parse of the witness environments: always three bounce events,
in payload order. -/
def parseEventsTest : String → Except Unit (List Bounce) :=
  fun _ => Except.ok [bSgOne, bSgTwo, bSgThree]

/-- Environment for the native-path witnesses: both providers configured,
parse yields bNative. -/
def envTest : Env :=
  { cfg := { bounceSESEnabled := true, bounceSendgridEnabled := true }
    ses := { processSubscription := fun _ => Except.ok ()
             processBounce := fun _ => Except.ok bSes }
    sg := { processBounce := sendgridProcessModel sgVerifyTest parseEventsTest }
    parseBounce := fun _ => Except.ok bNative
    isEmail := isEmailModel
    uuidMatch := reUUIDMatch
    now := { year := 2026, frac := 0 } }

/-- Environment for the C10 witness: like envTest but parse yields bMixed. -/
def envNative2 : Env :=
  { envTest with parseBounce := fun _ => Except.ok bMixed }

/-- Environment with both provider flags off. -/
def envDisabled : Env :=
  { envTest with cfg := { bounceSESEnabled := false, bounceSendgridEnabled := false } }

/-- Native-path request (empty service selector). -/
def reqNative : WebhookRequest :=
  { service := "", snsMessageType := "", sgSignature := "", sgTimestamp := ""
    rawBody := "body" }

/-- SES request carrying the SubscriptionConfirmation message type. -/
def reqSesSub : WebhookRequest :=
  { service := "ses", snsMessageType := "SubscriptionConfirmation"
    sgSignature := "", sgTimestamp := "", rawBody := "x" }

/-- SES request carrying the Notification message type. -/
def reqSesNotif : WebhookRequest :=
  { service := "ses", snsMessageType := "Notification"
    sgSignature := "", sgTimestamp := "", rawBody := "x" }

/-- SES request carrying an unrecognized message type. -/
def reqSesBad : WebhookRequest :=
  { service := "ses", snsMessageType := "Garbage"
    sgSignature := "", sgTimestamp := "", rawBody := "x" }

/-- Sendgrid request whose signature does not verify. -/
def reqSgBad : WebhookRequest :=
  { service := "sendgrid", snsMessageType := "", sgSignature := "badsig"
    sgTimestamp := "t1", rawBody := "payload" }

/-- Sendgrid request whose signature verifies. -/
def reqSgGood : WebhookRequest :=
  { service := "sendgrid", snsMessageType := "", sgSignature := "goodsig"
    sgTimestamp := "t1", rawBody := "payload" }

/-- Current time used by the C8 evaluation. -/
def nowTest : GoTime := { year := 2026, frac := 0 }

theorem recordLoop_tracing (f : Bounce → Bool) (s bs : List Bounce) :
    recordLoop (tracingRecorder f) s bs = s ++ bs := by
  induction bs generalizing s with
  | nil => simp [recordLoop]
  | cons b rest ih => simp [recordLoop, tracingRecorder, ih]

theorem handle_of_dispatch_ok (e : Env) (req : WebhookRequest) (bs : List Bounce)
    (f : Bounce → Bool) (s : List Bounce)
    (h : bounceDispatch e req = Except.ok bs) :
    handleBounceWebhook e (tracingRecorder f) s req = (s ++ bs, Except.ok true) := by
  unfold handleBounceWebhook
  rw [h]
  simp [recordLoop_tracing]

theorem handle_of_dispatch_err {σ : Type} (e : Env) (req : WebhookRequest)
    (err : ApiError) (rec : σ → Bounce → σ × Bool) (s : σ)
    (h : bounceDispatch e req = Except.error err) :
    handleBounceWebhook e rec s req = (s, Except.error err) := by
  unfold handleBounceWebhook
  rw [h]

/-- Claim C1, counterexample: the Validator as implemented accepts a record
in which both email and subscriberUUID are non-empty (each individually
well-formed), refuting the exactly-one acceptance condition. -/
theorem c1_counterexample :
    bBothFields.email ≠ "" ∧ bBothFields.subscriberUUID ≠ "" ∧
    validateBounceFields isEmailModel reUUIDMatch bBothFields = Except.ok () :=
  ⟨by decide, by decide, by rfl⟩

/-- Claim C1 (amended): the Validator accepts a record only if at least one
of email and subscriberUUID is non-empty; both non-empty is allowed. -/
theorem c1_at_least_one_nonempty (isEmail uuidMatch : String → Bool) (b : Bounce)
    (h : validateBounceFields isEmail uuidMatch b = Except.ok ()) :
    b.email ≠ "" ∨ b.subscriberUUID ≠ "" := by
  by_contra hc
  push_neg at hc
  have hb : b.email = "" ∧ b.subscriberUUID = "" := ⟨hc.1, hc.2⟩
  unfold validateBounceFields at h
  rw [if_pos hb] at h
  exact Except.noConfusion h

/-- Claim C1 (amended), witness at a concrete accepted record. -/
theorem c1_witness :
    validateBounceFields isEmailModel reUUIDMatch bEmailOnly = Except.ok () ∧
    (bEmailOnly.email ≠ "" ∨ bEmailOnly.subscriberUUID ≠ "") :=
  ⟨by rfl, c1_at_least_one_nonempty isEmailModel reUUIDMatch bEmailOnly (by rfl)⟩

/-- Claim C7: the Validator is the pure function applying, in order: fail
invalidData when both email and subscriberUUID are empty; else fail
invalidEmail when email is non-empty and not a syntactically valid email;
else fail invalidUUID when subscriberUUID is non-empty and does not match
the UUID pattern; else succeed. Stated for every choice of the two
syntactic predicates the source delegates to. -/
theorem c7_validator_rules (isEmail uuidMatch : String → Bool) (b : Bounce) :
    (b.email = "" ∧ b.subscriberUUID = "" →
      validateBounceFields isEmail uuidMatch b = Except.error ApiError.invalidData) ∧
    (b.email ≠ "" → isEmail b.email = false →
      validateBounceFields isEmail uuidMatch b = Except.error ApiError.invalidEmail) ∧
    ((b.email = "" ∨ isEmail b.email = true) → b.subscriberUUID ≠ "" →
      uuidMatch b.subscriberUUID = false →
      validateBounceFields isEmail uuidMatch b = Except.error ApiError.invalidUUID) ∧
    ((b.email ≠ "" ∨ b.subscriberUUID ≠ "") →
      (b.email = "" ∨ isEmail b.email = true) →
      (b.subscriberUUID = "" ∨ uuidMatch b.subscriberUUID = true) →
      validateBounceFields isEmail uuidMatch b = Except.ok ()) := by
  refine ⟨?_, ?_, ?_, ?_⟩
  · intro h
    unfold validateBounceFields
    rw [if_pos h]
  · intro he hm
    unfold validateBounceFields
    rw [if_neg (by tauto), if_pos ⟨he, hm⟩]
  · intro he hu hm
    unfold validateBounceFields
    rw [if_neg (by tauto), if_neg (by rcases he with h | h <;> simp [h]),
      if_pos ⟨hu, hm⟩]
  · intro hne he hu
    unfold validateBounceFields
    rw [if_neg (by tauto), if_neg (by rcases he with h | h <;> simp [h]),
      if_neg (by rcases hu with h | h <;> simp [h])]

/-- Claim C7, witness: both rejection of the all-empty record and acceptance
of a well-formed record, via the rules theorem at concrete inputs. -/
theorem c7_witness :
    validateBounceFields isEmailModel reUUIDMatch bBothEmpty =
      Except.error ApiError.invalidData ∧
    validateBounceFields isEmailModel reUUIDMatch bEmailOnly = Except.ok () :=
  ⟨(c7_validator_rules isEmailModel reUUIDMatch bBothEmpty).1 ⟨by rfl, by rfl⟩,
    (c7_validator_rules isEmailModel reUUIDMatch bEmailOnly).2.2.2
      (Or.inl (by decide)) (Or.inr (by decide)) (Or.inl (by rfl))⟩

/-- Claim C2: once dispatch yielded a bounce list, the handler invokes the
Recorder once per record in list order (the recorded trace equals the list),
a failing Record call never prevents the remaining calls (the statement
holds for every failure pattern f), and the HTTP-level response is success
regardless of f. -/
theorem c2_recorder_fanout (e : Env) (req : WebhookRequest) (bs : List Bounce)
    (f : Bounce → Bool)
    (h : bounceDispatch e req = Except.ok bs) :
    handleBounceWebhook e (tracingRecorder f) [] req = (bs, Except.ok true) := by
  simpa using handle_of_dispatch_ok e req bs f [] h

/-- Claim C2, witness: a native call with a recorder that fails on every
record still records the whole list in order and reports success. -/
theorem c2_witness :
    bounceDispatch envTest reqNative = Except.ok [bNative] ∧
    handleBounceWebhook envTest (tracingRecorder (fun _ => false)) [] reqNative
      = ([bNative], Except.ok true) :=
  ⟨by rfl, c2_recorder_fanout envTest reqNative [bNative] (fun _ => false) (by rfl)⟩

/-- Claim C3: on the SES path with the provider enabled, a confirmation
message type with a successful handshake yields zero records produced and
recorded; a Notification whose envelope parses yields exactly one record;
any other message type fails as invalid input with nothing recorded. -/
theorem c3_ses_message_types (e : Env) (req : WebhookRequest)
    (hs : req.service = "ses") (he : e.cfg.bounceSESEnabled = true) :
    ((req.snsMessageType = "SubscriptionConfirmation" ∨
        req.snsMessageType = "UnsubscribeConfirmation") →
      e.ses.processSubscription req.rawBody = Except.ok () →
      bounceDispatch e req = Except.ok [] ∧
      ∀ (f : Bounce → Bool) (s : List Bounce),
        handleBounceWebhook e (tracingRecorder f) s req = (s, Except.ok true)) ∧
    (∀ b : Bounce, req.snsMessageType = "Notification" →
      e.ses.processBounce req.rawBody = Except.ok b →
      bounceDispatch e req = Except.ok [b] ∧
      ∀ (f : Bounce → Bool) (s : List Bounce),
        handleBounceWebhook e (tracingRecorder f) s req = (s ++ [b], Except.ok true)) ∧
    (req.snsMessageType ≠ "SubscriptionConfirmation" →
      req.snsMessageType ≠ "UnsubscribeConfirmation" →
      req.snsMessageType ≠ "Notification" →
      bounceDispatch e req = Except.error ApiError.invalidData ∧
      ∀ (σ : Type) (rec : σ → Bounce → σ × Bool) (s : σ),
        handleBounceWebhook e rec s req = (s, Except.error ApiError.invalidData)) := by
  have hservice : ¬(req.service = "") := by rw [hs]; decide
  refine ⟨?_, ?_, ?_⟩
  · intro hmt hsub
    have hd : bounceDispatch e req = Except.ok [] := by
      unfold bounceDispatch
      rw [if_neg hservice, if_pos ⟨hs, he⟩, if_pos hmt, hsub]
    refine ⟨hd, fun f s => ?_⟩
    simpa using handle_of_dispatch_ok e req [] f s hd
  · intro b hmt hb
    have hd : bounceDispatch e req = Except.ok [b] := by
      unfold bounceDispatch
      rw [if_neg hservice, if_pos ⟨hs, he⟩,
        if_neg (by rw [hmt]; decide), if_pos hmt, hb]
    exact ⟨hd, fun f s => handle_of_dispatch_ok e req [b] f s hd⟩
  · intro h1 h2 h3
    have hd : bounceDispatch e req = Except.error ApiError.invalidData := by
      unfold bounceDispatch
      rw [if_neg hservice, if_pos ⟨hs, he⟩, if_neg (not_or.mpr ⟨h1, h2⟩), if_neg h3]
    exact ⟨hd, fun σ rec s => handle_of_dispatch_err e req ApiError.invalidData rec s hd⟩

/-- Claim C3, witness: the three SES message-type behaviors at concrete
requests against a concrete environment. -/
theorem c3_witness :
    bounceDispatch envTest reqSesSub = Except.ok [] ∧
    handleBounceWebhook envTest (tracingRecorder (fun _ => true)) [] reqSesSub
      = ([], Except.ok true) ∧
    bounceDispatch envTest reqSesNotif = Except.ok [bSes] ∧
    bounceDispatch envTest reqSesBad = Except.error ApiError.invalidData := by
  refine ⟨?_, ?_, ?_, ?_⟩
  · exact ((c3_ses_message_types envTest reqSesSub (by rfl) (by rfl)).1
      (Or.inl (by rfl)) (by rfl)).1
  · exact ((c3_ses_message_types envTest reqSesSub (by rfl) (by rfl)).1
      (Or.inl (by rfl)) (by rfl)).2 (fun _ => true) []
  · exact ((c3_ses_message_types envTest reqSesNotif (by rfl) (by rfl)).2.1
      bSes (by rfl) (by rfl)).1
  · exact ((c3_ses_message_types envTest reqSesBad (by rfl) (by rfl)).2.2
      (by decide) (by decide) (by decide)).1

/-- Claim C4: on the Sendgrid path with the provider enabled and the adapter
being the spec model, a signature that does not verify over timestamp plus
raw body fails as invalid input with zero records recorded, whatever the
payload; a verifying signature whose payload parses to the event list bs
produces exactly bs, handed to the Recorder in payload order. -/
theorem c4_sendgrid_signature (e : Env) (req : WebhookRequest)
    (verify : String → String → String → Bool)
    (parseEvents : String → Except Unit (List Bounce))
    (hs : req.service = "sendgrid") (he : e.cfg.bounceSendgridEnabled = true)
    (hsg : e.sg = SendgridAdapter.mk (sendgridProcessModel verify parseEvents)) :
    (verify req.sgSignature req.sgTimestamp req.rawBody = false →
      bounceDispatch e req = Except.error ApiError.invalidData ∧
      ∀ (σ : Type) (rec : σ → Bounce → σ × Bool) (s : σ),
        handleBounceWebhook e rec s req = (s, Except.error ApiError.invalidData)) ∧
    (∀ bs : List Bounce,
      verify req.sgSignature req.sgTimestamp req.rawBody = true →
      parseEvents req.rawBody = Except.ok bs →
      bounceDispatch e req = Except.ok bs ∧
      ∀ (f : Bounce → Bool) (s : List Bounce),
        handleBounceWebhook e (tracingRecorder f) s req = (s ++ bs, Except.ok true)) := by
  have hservice : ¬(req.service = "") := by rw [hs]; decide
  have hses : ¬(req.service = "ses" ∧ e.cfg.bounceSESEnabled = true) := by
    rw [hs]; intro hc; exact absurd hc.1 (by decide)
  refine ⟨?_, ?_⟩
  · intro hv
    have hd : bounceDispatch e req = Except.error ApiError.invalidData := by
      unfold bounceDispatch
      rw [if_neg hservice, if_neg hses, if_pos ⟨hs, he⟩, hsg]
      simp [sendgridProcessModel, hv]
    exact ⟨hd, fun σ rec s => handle_of_dispatch_err e req ApiError.invalidData rec s hd⟩
  · intro bs hv hp
    have hd : bounceDispatch e req = Except.ok bs := by
      unfold bounceDispatch
      rw [if_neg hservice, if_neg hses, if_pos ⟨hs, he⟩, hsg]
      simp [sendgridProcessModel, hv, hp]
    exact ⟨hd, fun f s => handle_of_dispatch_ok e req bs f s hd⟩

/-- Claim C4, witness: a failing signature is rejected with nothing
recorded; a verifying signature with a three-event payload records exactly
those three, in payload order, even when every Record call fails. -/
theorem c4_witness :
    bounceDispatch envTest reqSgBad = Except.error ApiError.invalidData ∧
    bounceDispatch envTest reqSgGood = Except.ok [bSgOne, bSgTwo, bSgThree] ∧
    handleBounceWebhook envTest (tracingRecorder (fun _ => false)) [] reqSgGood
      = ([bSgOne, bSgTwo, bSgThree], Except.ok true) := by
  have hbad := (c4_sendgrid_signature envTest reqSgBad sgVerifyTest parseEventsTest
    (by rfl) (by rfl) (by rfl)).1 (by decide)
  have hgood := (c4_sendgrid_signature envTest reqSgGood sgVerifyTest parseEventsTest
    (by rfl) (by rfl) (by rfl)).2 [bSgOne, bSgTwo, bSgThree] (by decide) (by rfl)
  refine ⟨hbad.1, hgood.1, ?_⟩
  simpa using hgood.2 (fun _ => false) []

/-- Claim C5: a webhook call naming a known non-native provider whose enable
flag is off fails with the unknown-service error, which is distinct from the
invalid-input error; the outcome holds for every adapter and every recorder,
whose state is left untouched. -/
theorem c5_disabled_unknown_service (e : Env) (req : WebhookRequest)
    (h : (req.service = "ses" ∧ e.cfg.bounceSESEnabled = false) ∨
         (req.service = "sendgrid" ∧ e.cfg.bounceSendgridEnabled = false)) :
    bounceDispatch e req = Except.error ApiError.unknownService ∧
    (∀ (σ : Type) (rec : σ → Bounce → σ × Bool) (s : σ),
      handleBounceWebhook e rec s req = (s, Except.error ApiError.unknownService)) ∧
    ApiError.unknownService ≠ ApiError.invalidData := by
  have hd : bounceDispatch e req = Except.error ApiError.unknownService := by
    unfold bounceDispatch
    rcases h with ⟨hs, hoff⟩ | ⟨hs, hoff⟩
    · rw [if_neg (by rw [hs]; decide),
        if_neg (by simp [hoff]),
        if_neg (by rw [hs]; intro hc; exact absurd hc.1 (by decide))]
    · rw [if_neg (by rw [hs]; decide),
        if_neg (by rw [hs]; intro hc; exact absurd hc.1 (by decide)),
        if_neg (by simp [hoff])]
  exact ⟨hd, fun σ rec s => handle_of_dispatch_err e req ApiError.unknownService rec s hd,
    by decide⟩

/-- Claim C5, witness: the SES path with its flag off at a concrete request,
with a concrete recorder left untouched. -/
theorem c5_witness :
    bounceDispatch envDisabled reqSesSub = Except.error ApiError.unknownService ∧
    handleBounceWebhook envDisabled (tracingRecorder (fun _ => true)) [] reqSesSub
      = ([], Except.error ApiError.unknownService) := by
  have h := c5_disabled_unknown_service envDisabled reqSesSub (Or.inl ⟨by rfl, by rfl⟩)
  exact ⟨h.1, h.2.1 (List Bounce) (tracingRecorder (fun _ => true)) []⟩

theorem parseStringIDs_err_of_mem (q : String) (qids : List String)
    (hq : q ∈ qids)
    (hbad : (goParseInt64 q).2 = false ∨ (goParseInt64 q).1 < 1) :
    parseStringIDs qids = Except.error () := by
  induction qids with
  | nil => cases hq
  | cons s rest ih =>
    rcases List.mem_cons.mp hq with h | h
    · subst h
      unfold parseStringIDs
      rcases hbad with hb | hb
      · rw [if_pos hb]
      · by_cases h2 : (goParseInt64 q).2 = false
        · rw [if_pos h2]
        · rw [if_neg h2, if_pos hb]
    · unfold parseStringIDs
      by_cases h2 : (goParseInt64 s).2 = false
      · rw [if_pos h2]
      · by_cases h1 : (goParseInt64 s).1 < 1
        · rw [if_neg h2, if_pos h1]
        · rw [if_neg h2, if_neg h1, ih h]

/-- Claim C6, counterexample: with no path id, the all flag set and an
unparseable id query parameter, the call does not fail as invalid-id; it
proceeds to the delete operation with the empty id array, because the source
consults the all flag before the explicit id set. -/
theorem c6_counterexample :
    handleDeleteBounces "" true ["abc"] = Except.ok [] ∧
    (goParseInt64 "abc").2 = false :=
  ⟨by rfl, by rfl⟩

/-- Claim C6 (amended): deletion modes resolve in priority order path-id,
all-flag, explicit id set. A non-empty path id whose parsed value (parse
errors ignored, yielding 0) is below 1 fails as invalid-id, otherwise that
single id proceeds; with no path id and the all flag unset, a query id that
is unparseable or non-positive fails as invalid-id, an empty id set fails as
invalid-id, and otherwise the parsed ids proceed; with no path id and the
all flag set the call proceeds with the empty id array, whatever the query
ids. -/
theorem c6_delete_modes (pID : String) (allFlag : Bool) (qids : List String) :
    (pID ≠ "" → (goParseInt64 pID).1 < 1 →
      handleDeleteBounces pID allFlag qids = Except.error ApiError.invalidID) ∧
    (pID ≠ "" → 1 ≤ (goParseInt64 pID).1 →
      handleDeleteBounces pID allFlag qids = Except.ok [(goParseInt64 pID).1]) ∧
    (pID = "" → allFlag = false → ∀ q, q ∈ qids →
      ((goParseInt64 q).2 = false ∨ (goParseInt64 q).1 < 1) →
      handleDeleteBounces pID allFlag qids = Except.error ApiError.invalidID) ∧
    (pID = "" → allFlag = false → qids = [] →
      handleDeleteBounces pID allFlag qids = Except.error ApiError.invalidID) ∧
    (pID = "" → allFlag = false → ∀ ids, parseStringIDs qids = Except.ok ids →
      ids ≠ [] → handleDeleteBounces pID allFlag qids = Except.ok ids) ∧
    (pID = "" → allFlag = true → handleDeleteBounces pID allFlag qids = Except.ok []) := by
  refine ⟨?_, ?_, ?_, ?_, ?_, ?_⟩
  · intro h hlt
    unfold handleDeleteBounces
    rw [if_pos h, if_pos hlt]
  · intro h hge
    unfold handleDeleteBounces
    rw [if_pos h, if_neg (by omega)]
  · intro h hall q hq hbad
    unfold handleDeleteBounces
    rw [if_neg (by simp [h]), if_pos hall, parseStringIDs_err_of_mem q qids hq hbad]
  · intro h hall hnil
    subst hnil
    unfold handleDeleteBounces
    rw [if_neg (by simp [h]), if_pos hall]
    rfl
  · intro h hall ids hp hne
    unfold handleDeleteBounces
    rw [if_neg (by simp [h]), if_pos hall, hp]
    simp [hne]
  · intro h hall
    unfold handleDeleteBounces
    rw [if_neg (by simp [h]), if_neg (by simp [hall])]

/-- Claim C6 (amended), witness: each of the six resolved outcomes at a
concrete call. -/
theorem c6_witness :
    handleDeleteBounces "0" false ["1"] = Except.error ApiError.invalidID ∧
    handleDeleteBounces "7" true [] = Except.ok [(goParseInt64 "7").1] ∧
    handleDeleteBounces "" false ["x"] = Except.error ApiError.invalidID ∧
    handleDeleteBounces "" false [] = Except.error ApiError.invalidID ∧
    handleDeleteBounces "" false ["2", "3"] = Except.ok [2, 3] ∧
    handleDeleteBounces "" true ["9"] = Except.ok [] := by
  refine ⟨?_, ?_, ?_, ?_, ?_, ?_⟩
  · exact (c6_delete_modes "0" false ["1"]).1 (by decide) (by decide)
  · exact (c6_delete_modes "7" true []).2.1 (by decide) (by decide)
  · exact (c6_delete_modes "" false ["x"]).2.2.1 rfl rfl "x" (by decide)
      (Or.inl (by rfl))
  · exact (c6_delete_modes "" false []).2.2.2.1 rfl rfl rfl
  · exact (c6_delete_modes "" false ["2", "3"]).2.2.2.2.1 rfl rfl [2, 3]
      (by rfl) (by decide)
  · exact (c6_delete_modes "" true ["9"]).2.2.2.2.2 rfl rfl

/-- Claim C8, evaluation at the failing input: a native payload carrying no
created_at parses to the Go zero time, whose year is 1, so the source's
Year() == 0 defaulting test does not fire and the record reaches the
Recorder with the zero timestamp, not the current time; the lowercasing of
email and the defaulting of meta do behave as claimed. -/
theorem c8_created_at_not_defaulted :
    goTimeZero.year = 1 ∧
    (nativeNormalize nowTest bNoTimestamp).createdAt = goTimeZero ∧
    (nativeNormalize nowTest bNoTimestamp).createdAt ≠ nowTest ∧
    (nativeNormalize nowTest bNoTimestamp).email = "user@example.com" ∧
    (nativeNormalize nowTest bNoTimestamp).meta = "\x7b\x7d" ∧
    validateBounceFields isEmailModel reUUIDMatch bNoTimestamp = Except.ok () ∧
    bounceDispatch { envTest with parseBounce := fun _ => Except.ok bNoTimestamp }
      reqNative = Except.ok [nativeNormalize nowTest bNoTimestamp] :=
  ⟨by rfl, by rfl, by decide, by rfl, by rfl, by rfl, by rfl⟩

/-- Claim C9: the orderBy interpolated into the bounce query is the request's
one exactly when it is in the allow-list and the default created_at
otherwise, so it always lies in the allow-list; the order is the request's
one when it is asc or desc and the default desc otherwise. -/
theorem c9_sort_allowlist (orderBy order : String) :
    (strSliceContains orderBy bounceQuerySortFields = false →
      (handleGetBouncesSort orderBy order).1 = "created_at") ∧
    (strSliceContains orderBy bounceQuerySortFields = true →
      (handleGetBouncesSort orderBy order).1 = orderBy) ∧
    strSliceContains (handleGetBouncesSort orderBy order).1 bounceQuerySortFields
      = true ∧
    (order ≠ sortAsc → order ≠ sortDesc →
      (handleGetBouncesSort orderBy order).2 = sortDesc) ∧
    ((handleGetBouncesSort orderBy order).2 = sortAsc ∨
      (handleGetBouncesSort orderBy order).2 = sortDesc) := by
  have hfst : (handleGetBouncesSort orderBy order).1
      = if strSliceContains orderBy bounceQuerySortFields = false
        then "created_at" else orderBy := by rfl
  have hsnd : (handleGetBouncesSort orderBy order).2
      = if order ≠ sortAsc ∧ order ≠ sortDesc then sortDesc else order := by rfl
  refine ⟨?_, ?_, ?_, ?_, ?_⟩
  · intro h
    rw [hfst, if_pos h]
  · intro h
    rw [hfst, if_neg (by simp [h])]
  · by_cases h : strSliceContains orderBy bounceQuerySortFields = false
    · rw [hfst, if_pos h]
      decide
    · rw [hfst, if_neg h]
      simpa using h
  · intro h1 h2
    rw [hsnd, if_pos ⟨h1, h2⟩]
  · by_cases h : order ≠ sortAsc ∧ order ≠ sortDesc
    · right
      rw [hsnd, if_pos h]
    · rw [not_and_or, not_not, not_not] at h
      rcases h with h | h
      · left
        rw [hsnd, if_neg (by simp [h]), h]
      · right
        rw [hsnd, if_neg (by simp [h]), h]

/-- Claim C9, witness: a disallowed orderBy and a malformed order fall back
to created_at and desc. -/
theorem c9_witness :
    strSliceContains "evil; drop" bounceQuerySortFields = false ∧
    (handleGetBouncesSort "evil; drop" "sideways").1 = "created_at" ∧
    (handleGetBouncesSort "evil; drop" "sideways").2 = sortDesc :=
  ⟨by decide,
    (c9_sort_allowlist "evil; drop" "sideways").1 (by decide),
    (c9_sort_allowlist "evil; drop" "sideways").2.2.2.1 (by decide) (by decide)⟩

/-- Claim C10: on the native path, for a payload passing validation, only
email (lowercased), meta (defaulted exactly when absent) and createdAt
(defaulted exactly when year-zero) may differ from the parsed payload in the
record handed to the Recorder; subscriberUUID, campaignID, type, source and
id pass through unchanged — in particular source is not stamped to a fixed
native value. -/
theorem c10_native_frame (e : Env) (req : WebhookRequest) (b : Bounce)
    (hserv : req.service = "")
    (hparse : e.parseBounce req.rawBody = Except.ok b)
    (hval : validateBounceFields e.isEmail e.uuidMatch b = Except.ok ()) :
    bounceDispatch e req = Except.ok [nativeNormalize e.now b] ∧
    (nativeNormalize e.now b).subscriberUUID = b.subscriberUUID ∧
    (nativeNormalize e.now b).campaignID = b.campaignID ∧
    (nativeNormalize e.now b).type = b.type ∧
    (nativeNormalize e.now b).source = b.source ∧
    (nativeNormalize e.now b).id = b.id ∧
    (nativeNormalize e.now b).email = goToLower b.email ∧
    (b.meta.length ≠ 0 → (nativeNormalize e.now b).meta = b.meta) ∧
    (b.meta.length = 0 → (nativeNormalize e.now b).meta = "\x7b\x7d") ∧
    (b.createdAt.year ≠ 0 → (nativeNormalize e.now b).createdAt = b.createdAt) ∧
    (b.createdAt.year = 0 → (nativeNormalize e.now b).createdAt = e.now) := by
  have hd : bounceDispatch e req = Except.ok [nativeNormalize e.now b] := by
    unfold bounceDispatch
    rw [if_pos hserv, hparse]
    simp only [hval]
  have hnorm : ∀ now : GoTime, nativeNormalize now b =
      { b with
        email := goToLower b.email
        meta := if b.meta.length = 0 then "\x7b\x7d" else b.meta
        createdAt := if b.createdAt.year = 0 then now else b.createdAt } := by
    intro now
    unfold nativeNormalize
    by_cases hm : b.meta.length = 0 <;> by_cases hy : b.createdAt.year = 0 <;>
      simp [hm, hy]
  refine ⟨hd, ?_, ?_, ?_, ?_, ?_, ?_, ?_, ?_, ?_, ?_⟩ <;>
    first
      | (intro h; simp [hnorm, h])
      | simp [hnorm]

/-- Claim C10, witness: a mixed-case record with empty meta and explicit
year-zero timestamp passes through with source, subscriberUUID untouched,
email lowercased and createdAt defaulted. -/
theorem c10_witness :
    bounceDispatch envNative2 reqNative
      = Except.ok [nativeNormalize envNative2.now bMixed] ∧
    (nativeNormalize envNative2.now bMixed).source = bMixed.source ∧
    (nativeNormalize envNative2.now bMixed).subscriberUUID = bMixed.subscriberUUID ∧
    (nativeNormalize envNative2.now bMixed).email = "mixed@example.com" ∧
    (nativeNormalize envNative2.now bMixed).createdAt = envNative2.now := by
  have h := c10_native_frame envNative2 reqNative bMixed (by rfl) (by rfl) (by rfl)
  refine ⟨h.1, h.2.2.2.2.1, h.2.1, ?_, h.2.2.2.2.2.2.2.2.2.2 (by rfl)⟩
  rw [h.2.2.2.2.2.2.1]
  rfl
